import Mathlib

/-!
Verification development for the GradCafe crawl-and-extract pipeline
(src/module_2: scrape.py, clean.py, main.py).

The Python source is shallowly embedded: text is `List Char`, the regular
expressions of the source are hand-compiled into deterministic matchers
(each one annotated with the pattern it implements), dictionaries become
structures with `Option` fields (`none` models an absent key), and network
fetches become oracle functions passed as arguments.  All definitions are
executable so that concrete runs of the model can be checked by `decide`.
-/

/-- Text is modelled as a list of characters (Python `str`, ASCII scope). -/
abbrev Txt := List Char

/-- Coerce a Lean string literal to the text model. -/
def str (s : String) : Txt := s.toList

/-- The single-quote character (spelled via its code point). -/
def squote : Char := Char.ofNat 39

/-- Python `\s` / `str.strip()` whitespace, ASCII scope. -/
def py_ws (c : Char) : Bool :=
  c == ' ' || c == '\t' || c == '\n' || c == '\r' || c == '\x0b' || c == '\x0c'

/-- ASCII decimal digit test (Python `\d`, ASCII scope). -/
def is_digit_ch (c : Char) : Bool := '0' ≤ c && c ≤ '9'

/-- Numeric value of a digit character. -/
def digit_val (c : Char) : Nat := c.toNat - '0'.toNat

/-- ASCII letter test. -/
def is_alpha_ch (c : Char) : Bool := ('a' ≤ c && c ≤ 'z') || ('A' ≤ c && c ≤ 'Z')

/-- Python `\w` word character, ASCII scope. -/
def is_word_ch (c : Char) : Bool := is_alpha_ch c || is_digit_ch c || c == '_'

/-- Lower-case a text (Python `str.lower()`, ASCII scope). -/
def lower (t : Txt) : Txt := t.map Char.toLower

/-- Drop leading whitespace. -/
def strip_start (t : Txt) : Txt := t.dropWhile py_ws

/-- Drop trailing whitespace. -/
def strip_end (t : Txt) : Txt := (t.reverse.dropWhile py_ws).reverse

/-- Python `str.strip()`. -/
def strip (t : Txt) : Txt := strip_end (strip_start t)

/-- Worker for `collapse_ws`; the flag records whether the previous kept
character came from a whitespace run. -/
def collapse_go : Bool → Txt → Txt
  | _, [] => []
  | prevWs, c :: cs =>
    if py_ws c then
      if prevWs then collapse_go true cs else ' ' :: collapse_go true cs
    else c :: collapse_go false cs

/-- Python `re.sub(r'\s+', ' ', t)`: each whitespace run becomes one space. -/
def collapse_ws (t : Txt) : Txt := collapse_go false t

/-- Printable-ASCII test (the `[\x20-\x7E]` class of clean.py `_clean_text`). -/
def printable_ch (c : Char) : Bool := ' ' ≤ c && c ≤ '~'

/-- clean.py `_clean_text`: strip, collapse whitespace, drop non-printables. -/
def clean_text (t : Txt) : Txt := (collapse_ws (strip t)).filter printable_ch

/-- clean.py `_clean_date`: the source only applies `_clean_text`. -/
def clean_date (t : Txt) : Txt := clean_text t

/-- Python substring containment (`needle in hay`). -/
def is_substr (needle : Txt) : Txt → Bool
  | [] => needle.isEmpty
  | c :: t => needle.isPrefixOf (c :: t) || is_substr needle t

/-- Python `' '.join`. -/
def join_space : List Txt → Txt
  | [] => []
  | [x] => x
  | x :: y :: rest => x ++ ' ' :: join_space (y :: rest)

/-- Worker for `py_title`; the flag records whether the previous character
was a letter. -/
def py_title_go : Bool → Txt → Txt
  | _, [] => []
  | prevAlpha, c :: cs =>
    (if is_alpha_ch c then if prevAlpha then c.toLower else c.toUpper else c)
      :: py_title_go (is_alpha_ch c) cs

/-- Python `str.title()`, ASCII scope. -/
def py_title (t : Txt) : Txt := py_title_go false t

/-- Left-pad a number with zeros to six characters (Python `f'{n:06d}'`). -/
def pad6 (n : Nat) : Txt :=
  List.replicate (6 - (str (toString n)).length) '0' ++ str (toString n)

/-! ### Hand-compiled regular-expression machinery

Each Python pattern used by the source is compiled to a deterministic
matcher `Txt → Option α` that matches at the head of the given suffix.
`search` tries every start position from the left, which is exactly
`re.search` for these patterns: wherever the source pattern contains an
optional piece (`(?:...)?`) the committed greedy choice taken here agrees
with the backtracking engine because skipping the piece can never let the
rest of the pattern match at the same position. -/

/-- Leftmost-position search (Python `re.search`). -/
def search {α : Type} (m : Txt → Option α) : Txt → Option α
  | [] => m []
  | c :: cs =>
    match m (c :: cs) with
    | some v => some v
    | none => search m cs

/-- True when a pattern starting with a word character may match here,
i.e. the previous character (if any) is not a word character (`\b`). -/
def no_word_before : Option Char → Bool
  | none => true
  | some p => !is_word_ch p

/-- Pattern `\b` after a match ending in a word character: next char not a word char. -/
def bnd_after : Txt → Bool
  | [] => true
  | c :: _ => !is_word_ch c

/-- Leftmost search that imposes a `\b` word boundary before the match. -/
def search_bnd {α : Type} (m : Txt → Option α) : Option Char → Txt → Option α
  | _, [] => none
  | prev, c :: cs =>
    match (if no_word_before prev then m (c :: cs) else none) with
    | some v => some v
    | none => search_bnd m (some c) cs

/-- Literal prefix (one regex literal); returns the rest on success. -/
def drop_lit (lit : Txt) (t : Txt) : Option Txt :=
  if lit.isPrefixOf t then some (t.drop lit.length) else none

/-- Optional literal (`(?:lit)?` where skipping cannot help, see above). -/
def opt_lit (lit : Txt) (t : Txt) : Txt := (drop_lit lit t).getD t

/-- Pattern `\s*`. -/
def skip_ws (t : Txt) : Txt := t.dropWhile py_ws

/-- Pattern `[c₁c₂]?` for a class of non-word characters followed by non-class atoms. -/
def opt_char_of (chs : List Char) : Txt → Txt
  | [] => []
  | c :: r => if chs.contains c then r else c :: r

/-- Pattern `\d{n}` (exactly `n` digits, no boundary): digit characters and rest. -/
def take_dchars : Nat → Txt → Option (Txt × Txt)
  | 0, t => some ([], t)
  | _ + 1, [] => none
  | n + 1, c :: r =>
    if is_digit_ch c then
      (take_dchars n r).map (fun p => (c :: p.1, p.2))
    else none

/-- Numeric value of a digit string. -/
def dval : Txt → Nat := List.foldl (fun a c => a * 10 + digit_val c) 0

/-! ### scrape.py `_parse_season_code` -/

/-- The literal season-code table of `_parse_season_code`, in the source's
insertion order. -/
def season_mapping : List (Txt × Txt) :=
  [(str "F25", str "Fall 2025"), (str "S25", str "Spring 2025"),
   (str "F24", str "Fall 2024"), (str "S24", str "Spring 2024"),
   (str "F23", str "Fall 2023"), (str "S23", str "Spring 2023"),
   (str "F22", str "Fall 2022"), (str "S22", str "Spring 2022"),
   (str "F21", str "Fall 2021"), (str "S21", str "Spring 2021"),
   (str "F20", str "Fall 2020"), (str "S20", str "Spring 2020"),
   (str "F19", str "Fall 2019"), (str "S19", str "Spring 2019"),
   (str "F26", str "Fall 2026"), (str "S26", str "Spring 2026")]

/-- Matcher for `[FS]\d{2}\b` at the current position (the leading `\b` is
imposed by `search_bnd`). -/
def match_season_code : Txt → Option (Char × Char × Char)
  | c :: d1 :: d2 :: rest =>
    if (c == 'F' || c == 'S') && is_digit_ch d1 && is_digit_ch d2 && bnd_after rest
    then some (c, d1, d2) else none
  | _ => none

/-- Matcher for `Name\s*20\d{2}\b` (case-insensitive), returning the number
of characters consumed so the original-case capture can be sliced out. -/
def match_full_season (name : Txt) (s : Txt) : Option Nat :=
  if (s.take name.length).map Char.toLower = name then
    let r1 := s.drop name.length
    let r2 := r1.dropWhile py_ws
    match r2 with
    | '2' :: '0' :: a :: b :: rest =>
      if is_digit_ch a && is_digit_ch b && bnd_after rest then
        some (s.length - rest.length)
      else none
    | _ => none
  else none

/-- Source `re.search(r'\b(Name\s*20\d{2})\b', t, re.IGNORECASE)`: the capture is
the matched slice of the original text. -/
def search_season_name (name : Txt) : Option Char → Txt → Option Txt
  | _, [] => none
  | prev, c :: cs =>
    match (if no_word_before prev then match_full_season name (c :: cs) else none) with
    | some n => some ((c :: cs).take n)
    | none => search_season_name name (some c) cs

/-- The final fallback of `_parse_season_code`: the four full season-name
patterns tried in source order. -/
def full_season_fallback (t : Txt) : Option Txt :=
  match search_season_name (str "fall") none t with
  | some cap => some cap
  | none =>
    match search_season_name (str "spring") none t with
    | some cap => some cap
    | none =>
      match search_season_name (str "summer") none t with
      | some cap => some cap
      | none => search_season_name (str "winter") none t

/-- scrape.py `_parse_season_code`: empty input is rejected, the text is
stripped, then (1) the first table code contained as a substring wins,
(2) else a word-bounded `[FS]\d{2}` code is looked up in the table and
otherwise decoded algorithmically (`F` → Fall, `S` → Spring, year
`20` + digits), (3) else the full season-name patterns are tried. -/
def parse_season_code (text : Txt) : Option Txt :=
  if text.isEmpty then none
  else
    let t := strip text
    match season_mapping.find? (fun p => is_substr p.1 t) with
    | some p => some p.2
    | none =>
      match search_bnd match_season_code none t with
      | some (c, d1, d2) =>
        match season_mapping.find? (fun p => p.1 = [c, d1, d2]) with
        | some p => some p.2
        | none =>
          if c = 'F' then some (str "Fall 20" ++ [d1, d2])
          else if c = 'S' then some (str "Spring 20" ++ [d1, d2])
          else full_season_fallback t
      | none => full_season_fallback t


/-! ### clean.py `_extract_gre_scores`: GRE total -/

/-- Pattern `gre\s*(?:total)?\s*[:=]?\s*(\d{3})`. -/
def m_gre1 (s : Txt) : Option Nat :=
  (drop_lit (str "gre") s).bind fun r =>
    (take_dchars 3 (skip_ws (opt_char_of [':', '='] (skip_ws (opt_lit (str "total") (skip_ws r)))))).map
      (fun p => dval p.1)

/-- Pattern `total\s*gre\s*[:=]?\s*(\d{3})`. -/
def m_gre2 (s : Txt) : Option Nat :=
  (drop_lit (str "total") s).bind fun r =>
    (drop_lit (str "gre") (skip_ws r)).bind fun r2 =>
      (take_dchars 3 (skip_ws (opt_char_of [':', '='] (skip_ws r2)))).map (fun p => dval p.1)

/-- Pattern `gre\s*(\d{3})`. -/
def m_gre3 (s : Txt) : Option Nat :=
  (drop_lit (str "gre") s).bind fun r => (take_dchars 3 (skip_ws r)).map (fun p => dval p.1)

/-- Pattern `(\d{3})\s*gre`. -/
def m_gre4 (s : Txt) : Option Nat :=
  (take_dchars 3 s).bind fun p =>
    (drop_lit (str "gre") (skip_ws p.2)).map (fun _ => dval p.1)

/-- The source's pattern loop with a range gate: the first pattern whose
parsed value lies inside `[lo, hi]` supplies the stored value; an
out-of-range parse falls through to the next pattern (the `break` in the
source sits inside the range check). -/
def first_in_range (lo hi : Nat) : List (Option Nat) → Option Nat
  | [] => none
  | none :: rest => first_in_range lo hi rest
  | some v :: rest => if lo ≤ v ∧ v ≤ hi then some v else first_in_range lo hi rest

/-- The four GRE-total pattern searches, in source order, on lowered text. -/
def gre_total_searches (tl : Txt) : List (Option Nat) :=
  [search m_gre1 tl, search m_gre2 tl, search m_gre3 tl, search m_gre4 tl]

/-- GRE-total extractor of `_extract_gre_scores` (260 ≤ v ≤ 340 gate). -/
def extract_gre_score_value (t : Txt) : Option Nat :=
  first_in_range 260 340 (gre_total_searches (lower t))

/-- All 3-digit integers the GRE-total patterns parse from a text. -/
def gre_total_parsed (t : Txt) : List Nat :=
  (gre_total_searches (lower t)).filterMap id

/-! ### clean.py `_extract_gre_scores`: GRE verbal -/

/-- Pattern `\d{2,3}` at the end of a pattern (greedy: three digits, else two). -/
def d23_val (t : Txt) : Option Nat :=
  match take_dchars 3 t with
  | some p => some (dval p.1)
  | none => (take_dchars 2 t).map (fun p => dval p.1)

/-- Pattern `(?:gre\s*)?v(?:erbal)?\s*[:=]?\s*(\d{2,3})`. -/
def m_v1 (s : Txt) : Option Nat :=
  (drop_lit (str "v") (match drop_lit (str "gre") s with | some r => skip_ws r | none => s)).bind
    fun r => d23_val (skip_ws (opt_char_of [':', '='] (skip_ws (opt_lit (str "erbal") r))))

/-- Pattern `verbal\s*[:=]?\s*(\d{2,3})`. -/
def m_v2 (s : Txt) : Option Nat :=
  (drop_lit (str "verbal") s).bind fun r =>
    d23_val (skip_ws (opt_char_of [':', '='] (skip_ws r)))

/-- Pattern `v\s*(\d{2,3})`. -/
def m_v3 (s : Txt) : Option Nat :=
  (drop_lit (str "v") s).bind fun r => d23_val (skip_ws r)

/-- Pattern `(\d{2,3})\s*v(?:erbal)?` (greedy digits, with the one backtracking
step the engine performs when the three-digit attempt fails). -/
def m_v4 (s : Txt) : Option Nat :=
  match (take_dchars 3 s).bind (fun p => (drop_lit (str "v") (skip_ws p.2)).map (fun _ => dval p.1)) with
  | some v => some v
  | none => (take_dchars 2 s).bind (fun p => (drop_lit (str "v") (skip_ws p.2)).map (fun _ => dval p.1))

/-- GRE-verbal extractor of `_extract_gre_scores` (130 ≤ v ≤ 170 gate). -/
def extract_gre_v_value (t : Txt) : Option Nat :=
  first_in_range 130 170 [search m_v1 (lower t), search m_v2 (lower t),
                          search m_v3 (lower t), search m_v4 (lower t)]

/-! ### clean.py `_extract_gre_scores`: analytical writing (value in tenths) -/

/-- Pattern `(\d(?:\.\d)?)` as a value in tenths. -/
def aw_num : Txt → Option Nat
  | c :: '.' :: d :: _ =>
    if is_digit_ch c then
      if is_digit_ch d then some (digit_val c * 10 + digit_val d)
      else some (digit_val c * 10)
    else none
  | c :: _ => if is_digit_ch c then some (digit_val c * 10) else none
  | [] => none

/-- Pattern `\s*[:=]?\s*(\d(?:\.\d)?)` after a matched keyword. -/
def m_aw_after (r : Txt) : Option Nat := aw_num (skip_ws (opt_char_of [':', '='] (skip_ws r)))

/-- Pattern `(?:gre\s*)?(?:aw|analytical\s*writing|writing)\s*[:=]?\s*(\d(?:\.\d)?)`. -/
def m_aw1 (s : Txt) : Option Nat :=
  match
    (drop_lit (str "aw") (match drop_lit (str "gre") s with | some r => skip_ws r | none => s)).bind m_aw_after
  with
  | some v => some v
  | none =>
    match
      (drop_lit (str "analytical") (match drop_lit (str "gre") s with | some r => skip_ws r | none => s)).bind
        (fun r => (drop_lit (str "writing") (skip_ws r)).bind m_aw_after)
    with
    | some v => some v
    | none =>
      (drop_lit (str "writing") (match drop_lit (str "gre") s with | some r => skip_ws r | none => s)).bind m_aw_after

/-- Pattern `aw\s*[:=]?\s*(\d(?:\.\d)?)`. -/
def m_aw2 (s : Txt) : Option Nat := (drop_lit (str "aw") s).bind m_aw_after

/-- Pattern `writing\s*[:=]?\s*(\d(?:\.\d)?)`. -/
def m_aw3 (s : Txt) : Option Nat := (drop_lit (str "writing") s).bind m_aw_after

/-- GRE analytical-writing extractor (0.0 ≤ v ≤ 6.0, i.e. tenths ≤ 60). -/
def extract_gre_aw_value (t : Txt) : Option Nat :=
  first_in_range 0 60 [search m_aw1 (lower t), search m_aw2 (lower t), search m_aw3 (lower t)]

/-- Python `str(float(v))` for a one-decimal value held in tenths. -/
def render_tenths (v : Nat) : Txt := str (toString (v / 10)) ++ '.' :: str (toString (v % 10))

/-! ### clean.py `_extract_gpa` (value in hundredths) -/

/-- Pattern `(\d\.\d{1,2})` at the end of a pattern, greedy, value in hundredths. -/
def gpa_num : Txt → Option (Nat × Txt)
  | c :: '.' :: d1 :: d2 :: r =>
    if is_digit_ch c && is_digit_ch d1 then
      if is_digit_ch d2 then some (digit_val c * 100 + digit_val d1 * 10 + digit_val d2, r)
      else some (digit_val c * 100 + digit_val d1 * 10, d2 :: r)
    else none
  | [c, '.', d1] =>
    if is_digit_ch c && is_digit_ch d1 then some (digit_val c * 100 + digit_val d1 * 10, [])
    else none
  | _ => none

/-- Pattern `gpa\s*[:=]?\s*(\d\.\d{1,2})`. -/
def m_gpa1 (s : Txt) : Option Nat :=
  (drop_lit (str "gpa") s).bind fun r =>
    (gpa_num (skip_ws (opt_char_of [':', '='] (skip_ws r)))).map (·.1)

/-- Pattern `(\d\.\d{1,2})\s*gpa` (greedy fraction with one backtracking step). -/
def m_gpa2 (s : Txt) : Option Nat :=
  match s with
  | c :: '.' :: d1 :: rest =>
    if is_digit_ch c && is_digit_ch d1 then
      match rest with
      | d2 :: r2 =>
        if is_digit_ch d2 && (drop_lit (str "gpa") (skip_ws r2)).isSome then
          some (digit_val c * 100 + digit_val d1 * 10 + digit_val d2)
        else if (drop_lit (str "gpa") (skip_ws (d2 :: r2))).isSome then
          some (digit_val c * 100 + digit_val d1 * 10)
        else none
      | [] => none
    else none
  | _ => none

/-- Pattern `\s*gpa\s*[:=]?\s*(\d\.\d{1,2})` after the `undergrad` keyword. -/
def m_gpa3_after (r : Txt) : Option Nat :=
  (drop_lit (str "gpa") (skip_ws r)).bind fun r2 =>
    (gpa_num (skip_ws (opt_char_of [':', '='] (skip_ws r2)))).map (·.1)

/-- Pattern `(?:undergraduate|undergrad)\s*gpa\s*[:=]?\s*(\d\.\d{1,2})`. -/
def m_gpa3 (s : Txt) : Option Nat :=
  match (drop_lit (str "undergraduate") s).bind m_gpa3_after with
  | some v => some v
  | none => (drop_lit (str "undergrad") s).bind m_gpa3_after

/-- Pattern `cgpa\s*[:=]?\s*(\d\.\d{1,2})`. -/
def m_gpa4 (s : Txt) : Option Nat :=
  (drop_lit (str "cgpa") s).bind fun r =>
    (gpa_num (skip_ws (opt_char_of [':', '='] (skip_ws r)))).map (·.1)

/-- The list of values the GPA patterns parse, in source order. -/
def gpa_searches (tl : Txt) : List (Option Nat) :=
  [search m_gpa1 tl, search m_gpa2 tl, search m_gpa3 tl, search m_gpa4 tl]

/-- GPA extractor of `_extract_gpa` (0.0 ≤ v ≤ 4.0, i.e. hundredths ≤ 400). -/
def extract_gpa_value (t : Txt) : Option Nat :=
  first_in_range 0 400 (gpa_searches (lower t))

/-- All values the GPA patterns parse from a text (in hundredths). -/
def gpa_parsed (t : Txt) : List Nat := (gpa_searches (lower t)).filterMap id

/-- Python `str(float(v))` for a value held in hundredths. -/
def render_hundredths (h : Nat) : Txt :=
  str (toString (h / 100)) ++ '.' ::
    (if h % 100 % 10 = 0 then str (toString (h % 100 / 10))
     else if h % 100 < 10 then '0' :: str (toString (h % 100))
     else str (toString (h % 100)))

/-! ### clean.py keyword extractors -/

/-- A word-bounded literal match at the current position (`\bw` handled by
`search_bnd`, trailing `\b` here). -/
def word_at (w : Txt) (s : Txt) : Bool := w.isPrefixOf s && bnd_after (s.drop w.length)

/-- Source `re.search(r'\bw\b', t)` as a Boolean. -/
def word_search (w : Txt) (t : Txt) : Bool :=
  (search_bnd (fun s => if word_at w s then some () else none) none t).isSome

/-- The doctoral keyword patterns of `_extract_degree_type`. -/
def phd_found (tl : Txt) : Bool :=
  word_search (str "phd") tl || word_search (str "ph.d") tl ||
  word_search (str "doctorate") tl || word_search (str "doctoral") tl

/-- The masters keyword patterns of `_extract_degree_type`
(`masters?` expanded to its two literal forms). -/
def masters_found (tl : Txt) : Bool :=
  word_search (str "masters") tl || word_search (str "master") tl ||
  word_search (str "ms") tl || word_search (str "m.s") tl ||
  word_search (str "ma") tl || word_search (str "m.a") tl ||
  word_search (str "meng") tl || word_search (str "mba") tl

/-- clean.py `_extract_degree_type`: doctoral keywords first. -/
def extract_degree_type_value (t : Txt) : Option Txt :=
  if phd_found (lower t) then some (str "PhD")
  else if masters_found (lower t) then some (str "Masters")
  else none

/-- The international keyword patterns of `_extract_student_status`. -/
def intl_found (tl : Txt) : Bool :=
  word_search (str "international") tl || word_search (str "intl") tl ||
  word_search (str "foreign") tl || word_search (str "f1") tl ||
  word_search (str "visa") tl || word_search (str "non-us") tl

/-- The domestic keyword patterns of `_extract_student_status`. -/
def domestic_found (tl : Txt) : Bool :=
  word_search (str "domestic") tl || word_search (str "american") tl ||
  word_search (str "us") tl || word_search (str "usa") tl ||
  word_search (str "citizen") tl || word_search (str "native") tl

/-- clean.py `_extract_student_status`: international checked first. -/
def extract_student_status_value (t : Txt) : Option Txt :=
  if intl_found (lower t) then some (str "International")
  else if domestic_found (lower t) then some (str "American")
  else none

/-! ### clean.py `_extract_semester_year` -/

/-- Pattern `(fall|spring|summer|winter)` alternation, leftmost alternative first. -/
def season_word (s : Txt) : Option (Txt × Txt) :=
  match drop_lit (str "fall") s with
  | some r => some (str "fall", r)
  | none =>
    match drop_lit (str "spring") s with
    | some r => some (str "spring", r)
    | none =>
      match drop_lit (str "summer") s with
      | some r => some (str "summer", r)
      | none => (drop_lit (str "winter") s).map (fun r => (str "winter", r))

/-- Pattern `(fall|spring|summer|winter)\s*(\d{4})`; the source builds
`group(1).title() + " " + year` with `year = group(2)` (length 4 ≠ 2). -/
def m_sem1 (s : Txt) : Option Txt :=
  (season_word s).bind fun p =>
    (take_dchars 4 (skip_ws p.2)).map fun q => py_title p.1 ++ ' ' :: q.1

/-- Pattern `(\d{4})\s*(fall|spring|summer|winter)`; here the source's
`group(1)`/`group(2)` are the digits and the season word, so its generic
`title(group(1)) + " " + group(2)` combination yields `digits word`. -/
def m_sem2 (s : Txt) : Option Txt :=
  (take_dchars 4 s).bind fun q =>
    (season_word (skip_ws q.2)).map fun p => py_title q.1 ++ ' ' :: p.1

/-- Pattern `(fall|spring|summer|winter)\s*['"]?(\d{2})`; two-digit year gets `20`
prepended. -/
def m_sem3 (s : Txt) : Option Txt :=
  (season_word s).bind fun p =>
    (take_dchars 2 (opt_char_of [squote, '"'] (skip_ws p.2))).map fun q =>
      py_title p.1 ++ ' ' :: '2' :: '0' :: q.1

/-- Pattern `20\d{2}\b` at the current position (leading `\b` via `search_bnd`). -/
def m_year : Txt → Option Txt
  | '2' :: '0' :: a :: b :: rest =>
    if is_digit_ch a && is_digit_ch b && bnd_after rest then some ['2', '0', a, b] else none
  | _ => none

/-- clean.py `_extract_semester_year`: three semester patterns on lowered
text, then a bare-year fallback gated to [2020, 2030]. -/
def extract_semester_year_value (t : Txt) : Option Txt :=
  match search m_sem1 (lower t) with
  | some v => some v
  | none =>
    match search m_sem2 (lower t) with
    | some v => some v
    | none =>
      match search m_sem3 (lower t) with
      | some v => some v
      | none =>
        match search_bnd m_year none t with
        | some ys => if 2020 ≤ dval ys ∧ dval ys ≤ 2030 then some ys else none
        | none => none

/-- clean.py `_extract_comments`: substantial text not mentioning the
score keywords becomes the (truncated) comments value. -/
def extract_comments_value (t : Txt) : Option Txt :=
  if 50 < t.length then
    if is_substr (str "gre") (lower (clean_text t)) ||
       is_substr (str "gpa") (lower (clean_text t)) ||
       is_substr (str "phd") (lower (clean_text t)) ||
       is_substr (str "masters") (lower (clean_text t)) then none
    else some ((clean_text t).take 500)
  else none


/-! ### clean.py data model and pipeline -/

/-- One raw scraped entry as consumed by clean.py `_clean_single_entry`
(the dict keys the cleaner reads; `none` models an absent key). -/
structure RawEntry where
  cell_data : List Txt
  row_text : Txt
  html_content : Txt
  entry_detail_url : Option Txt
  page_url : Option Txt
deriving DecidableEq

/-- The cleaned-entry dict of clean.py: the fifteen required fields plus
the generated id and the completeness percentage.  `none` models an
absent key (never produced by the pipeline, see the C9 theorem); the
`cleaning_timestamp` metadata field is a wall-clock side effect and is
not modelled. -/
structure CleanedEntry where
  program_name : Option Txt
  university : Option Txt
  comments : Option Txt
  date_information_added : Option Txt
  url_link_to_applicant_entry : Option Txt
  applicant_status : Option Txt
  acceptance_date : Option Txt
  rejection_date : Option Txt
  semester_and_year_program_start : Option Txt
  international_american_student : Option Txt
  gre_score : Option Txt
  gre_v_score : Option Txt
  masters_or_phd : Option Txt
  gpa : Option Txt
  gre_aw : Option Txt
  entry_id : Txt
  data_completeness_percentage : Nat
deriving DecidableEq

/-- The initial dict of `_clean_single_entry`: every required field is
present with the empty string. -/
def init_cleaned_entry (eid : Txt) : CleanedEntry :=
  { program_name := some [], university := some [], comments := some [],
    date_information_added := some [], url_link_to_applicant_entry := some [],
    applicant_status := some [], acceptance_date := some [], rejection_date := some [],
    semester_and_year_program_start := some [], international_american_student := some [],
    gre_score := some [], gre_v_score := some [], masters_or_phd := some [],
    gpa := some [], gre_aw := some [], entry_id := eid,
    data_completeness_percentage := 0 }

/-- A successful extraction overwrites the field; a failed one leaves it. -/
def upd_field (old v : Option Txt) : Option Txt :=
  match v with
  | some s => some s
  | none => old

/-- clean.py `_generate_entry_id`.  Python's `hash` is seed-dependent
across interpreter runs, so it is modelled as the parameter `hf`. -/
def generate_entry_id (hf : Txt → Nat) (raw : RawEntry) : Txt :=
  str "gc_" ++ pad6 (hf (raw.row_text ++ raw.page_url.getD []) % 1000000)

/-- clean.py `_extract_basic_info`: positional cell mapping plus the URL. -/
def extract_basic_info (raw : RawEntry) (e : CleanedEntry) : CleanedEntry :=
  let e1 := match raw.cell_data.get? 0 with
    | some c => { e with university := some (clean_text c) }
    | none => e
  let e2 := match raw.cell_data.get? 1 with
    | some c => { e1 with program_name := some (clean_text c) }
    | none => e1
  let e3 := match raw.cell_data.get? 2 with
    | some c => { e2 with applicant_status := some (clean_text c) }
    | none => e2
  let e4 := match raw.cell_data.get? 4 with
    | some c => { e3 with date_information_added := some (clean_date c) }
    | none => e3
  { e4 with url_link_to_applicant_entry := some (raw.entry_detail_url.getD (raw.page_url.getD [])) }

/-- Worker for `strip_html`; the flag records being inside a tag. -/
def strip_html_go : Bool → Txt → Txt
  | _, [] => []
  | true, c :: cs => if c == '>' then strip_html_go false cs else strip_html_go true cs
  | false, c :: cs => if c == '<' then ' ' :: strip_html_go true cs else c :: strip_html_go false cs

/-- clean.py `_remove_html_tags` delegates to the external HTML library
(BeautifulSoup `get_text`), modelled here as replacing each tag span with
a separating space. -/
def strip_html (t : Txt) : Txt := strip_html_go false t

/-- The combined text `_extract_detailed_info` hands to every extractor. -/
def detail_text (raw : RawEntry) : Txt := strip_html (raw.html_content ++ ' ' :: raw.row_text)

/-- clean.py `_extract_gre_scores` as a record transformer. -/
def extract_gre_scores (t : Txt) (e : CleanedEntry) : CleanedEntry :=
  { e with
    gre_score := upd_field e.gre_score ((extract_gre_score_value t).map (fun v => str (toString v))),
    gre_v_score := upd_field e.gre_v_score ((extract_gre_v_value t).map (fun v => str (toString v))),
    gre_aw := upd_field e.gre_aw ((extract_gre_aw_value t).map render_tenths) }

/-- clean.py `_extract_gpa` as a record transformer. -/
def extract_gpa (t : Txt) (e : CleanedEntry) : CleanedEntry :=
  { e with gpa := upd_field e.gpa ((extract_gpa_value t).map render_hundredths) }

/-- clean.py `_extract_degree_type` as a record transformer. -/
def extract_degree_type (t : Txt) (e : CleanedEntry) : CleanedEntry :=
  { e with masters_or_phd := upd_field e.masters_or_phd (extract_degree_type_value t) }

/-- clean.py `_extract_student_status` as a record transformer. -/
def extract_student_status (t : Txt) (e : CleanedEntry) : CleanedEntry :=
  { e with international_american_student :=
      upd_field e.international_american_student (extract_student_status_value t) }

/-- clean.py `_extract_semester_year` as a record transformer. -/
def extract_semester_year (t : Txt) (e : CleanedEntry) : CleanedEntry :=
  { e with semester_and_year_program_start :=
      upd_field e.semester_and_year_program_start (extract_semester_year_value t) }

/-- clean.py `_extract_decision_dates`: copies the "added" date into the
acceptance or rejection date according to the status text. -/
def extract_decision_dates (e : CleanedEntry) : CleanedEntry :=
  if is_substr (str "accept") (lower (e.applicant_status.getD [])) ||
     is_substr (str "admit") (lower (e.applicant_status.getD [])) then
    { e with acceptance_date := some (e.date_information_added.getD []) }
  else if is_substr (str "reject") (lower (e.applicant_status.getD [])) ||
          is_substr (str "denied") (lower (e.applicant_status.getD [])) then
    { e with rejection_date := some (e.date_information_added.getD []) }
  else e

/-- clean.py `_extract_comments` as a record transformer. -/
def extract_comments (t : Txt) (e : CleanedEntry) : CleanedEntry :=
  { e with comments := upd_field e.comments (extract_comments_value t) }

/-- clean.py `_extract_detailed_info`: the extractor sequence in source
order over the HTML-stripped combined text. -/
def extract_detailed_info (raw : RawEntry) (e : CleanedEntry) : CleanedEntry :=
  extract_comments (detail_text raw)
    (extract_decision_dates
      (extract_semester_year (detail_text raw)
        (extract_student_status (detail_text raw)
          (extract_degree_type (detail_text raw)
            (extract_gpa (detail_text raw)
              (extract_gre_scores (detail_text raw) e))))))

/-- clean.py `_clean_and_validate_fields`: every required field becomes a
present, cleaned string (absent/None turns into the empty string). -/
def clean_and_validate_fields (e : CleanedEntry) : CleanedEntry :=
  { e with
    program_name := some (clean_text (e.program_name.getD [])),
    university := some (clean_text (e.university.getD [])),
    comments := some (clean_text (e.comments.getD [])),
    date_information_added := some (clean_text (e.date_information_added.getD [])),
    url_link_to_applicant_entry := some (clean_text (e.url_link_to_applicant_entry.getD [])),
    applicant_status := some (clean_text (e.applicant_status.getD [])),
    acceptance_date := some (clean_text (e.acceptance_date.getD [])),
    rejection_date := some (clean_text (e.rejection_date.getD [])),
    semester_and_year_program_start := some (clean_text (e.semester_and_year_program_start.getD [])),
    international_american_student := some (clean_text (e.international_american_student.getD [])),
    gre_score := some (clean_text (e.gre_score.getD [])),
    gre_v_score := some (clean_text (e.gre_v_score.getD [])),
    masters_or_phd := some (clean_text (e.masters_or_phd.getD [])),
    gpa := some (clean_text (e.gpa.getD [])),
    gre_aw := some (clean_text (e.gre_aw.getD [])) }

/-- Python truthiness of a dict lookup (`None` and the empty string are
falsy). -/
def truthy : Option Txt → Bool
  | none => false
  | some s => !s.isEmpty

/-- The fixed "important fields" list of `_calculate_completeness`, in
source order. -/
def important_fields (e : CleanedEntry) : List (Option Txt) :=
  [e.program_name, e.university, e.applicant_status, e.gre_score,
   e.gpa, e.masters_or_phd, e.international_american_student,
   e.semester_and_year_program_start]

/-- Python `round` (banker's rounding, half to even) of `num / den`.
The source computes `round((filled / 8) * 100)` in floating point; every
such value (a multiple of 12.5) is exactly representable, so the rational
rounding below is exact. -/
def round_half_even (num den : Nat) : Nat :=
  if 2 * (num % den) < den then num / den
  else if den < 2 * (num % den) then num / den + 1
  else if num / den % 2 = 0 then num / den else num / den + 1

/-- clean.py `_calculate_completeness`. -/
def calculate_completeness (e : CleanedEntry) : Nat :=
  round_half_even ((important_fields e).countP truthy * 100) (important_fields e).length

/-- clean.py `_clean_single_entry`: initialize, extract, validate, score.
The body of the source function raises no exception on any input of this
model, so the `except` branch (returning None) is unreachable and the
function is total. -/
def clean_single_entry (hf : Txt → Nat) (raw : RawEntry) : CleanedEntry :=
  let e1 := extract_basic_info raw (init_cleaned_entry (generate_entry_id hf raw))
  let e2 := extract_detailed_info raw e1
  let e3 := clean_and_validate_fields e2
  { e3 with data_completeness_percentage := calculate_completeness e3 }

/-- clean.py `clean_data`: the per-entry pass over the raw dataset. -/
def clean_data (hf : Txt → Nat) (raws : List RawEntry) : List CleanedEntry :=
  raws.map (clean_single_entry hf)

/-! ### scrape.py detail-page parsing (`_parse_gradcafe_fields`,
`_clean_and_validate_entry`) -/

/-- The keys of the `field_labels` dict of `_parse_gradcafe_fields`. -/
inductive FieldKey where
  | institution | program | degree_type | country_origin | decision
  | notification | gpa | gre_general | gre_verbal | gre_quantitative
  | analytical_writing | notes
deriving DecidableEq

/-- The label text of each field key (`field_labels` values). -/
def field_label : FieldKey → Txt
  | .institution => str "Institution"
  | .program => str "Program"
  | .degree_type => str "Degree Type"
  | .country_origin => str "Degree" ++ squote :: str "s Country of Origin"
  | .decision => str "Decision"
  | .notification => str "Notification"
  | .gpa => str "Undergrad GPA"
  | .gre_general => str "GRE General"
  | .gre_verbal => str "GRE Verbal"
  | .gre_quantitative => str "GRE Quantitative"
  | .analytical_writing => str "Analytical Writing"
  | .notes => str "Notes"

/-- The field keys in the source dict's insertion order. -/
def field_keys : List FieldKey :=
  [.institution, .program, .degree_type, .country_origin, .decision,
   .notification, .gpa, .gre_general, .gre_verbal, .gre_quantitative,
   .analytical_writing, .notes]

/-- The exact-label lookup of the outer loop (first matching label wins). -/
def find_label (line : Txt) : Option FieldKey :=
  field_keys.find? (fun k => field_label k = line)

/-- Source `field_labels.values()`. -/
def label_values : List Txt := field_keys.map field_label

/-- The entry dict produced by `_parse_gradcafe_fields` and enriched by
`_clean_and_validate_entry` (`none` models an absent key). -/
structure ScrapeEntry where
  institution : Option Txt := none
  program : Option Txt := none
  degree_type : Option Txt := none
  country_origin : Option Txt := none
  decision : Option Txt := none
  notification : Option Txt := none
  gpa : Option Txt := none
  gre_general : Option Txt := none
  gre_verbal : Option Txt := none
  gre_quantitative : Option Txt := none
  analytical_writing : Option Txt := none
  notes : Option Txt := none
  notification_date : Option Txt := none
  notification_method : Option Txt := none
  decision_standardized : Option Txt := none
  notes_length : Option Nat := none
  notes_word_count : Option Nat := none
deriving DecidableEq

/-- The empty entry dict. -/
def empty_scrape_entry : ScrapeEntry := {}

/-- Source `entry_data[field_key] = value`. -/
def set_scrape_field (k : FieldKey) (v : Txt) (e : ScrapeEntry) : ScrapeEntry :=
  match k with
  | .institution => { e with institution := some v }
  | .program => { e with program := some v }
  | .degree_type => { e with degree_type := some v }
  | .country_origin => { e with country_origin := some v }
  | .decision => { e with decision := some v }
  | .notification => { e with notification := some v }
  | .gpa => { e with gpa := some v }
  | .gre_general => { e with gre_general := some v }
  | .gre_verbal => { e with gre_verbal := some v }
  | .gre_quantitative => { e with gre_quantitative := some v }
  | .analytical_writing => { e with analytical_writing := some v }
  | .notes => { e with notes := some v }

/-- The section-boundary test of the notes-collection loop. -/
def is_section_boundary (line : Txt) : Bool :=
  line = str "Timeline" || line = str "Application Information" ||
  label_values.any (fun l => l = line) ||
  (str "Received notification").isPrefixOf line

/-- The boilerplate blocklist applied to candidate notes lines. -/
def notes_blocklist : List Txt :=
  [str "Details and information about the application.",
   str "This data is estimated based on applicant submissions at The GradCafe."]

/-- Source `if line and line not in [boilerplate]`. -/
def keep_note_line (line : Txt) : Bool :=
  !line.isEmpty && !notes_blocklist.any (fun b => b = line)

/-- The value guard of the regular-field branch. -/
def keep_field_value (v : Txt) : Bool :=
  !v.isEmpty && !label_values.any (fun l => l = v) &&
  !([str "Submit yours", str "-", str "Details and information about the application."].any
      (fun l => l = v))

/-- The inner notes loop (index `j` in the source): walk forward from the
line after the "Notes" label, stop at the first section boundary, keep
non-blocklisted lines.  Returns the unconsumed suffix (starting at the
boundary line, where the outer loop resumes) and the collected lines. -/
def notes_scan : List Txt → List Txt → List Txt × List Txt
  | [], acc => ([], acc)
  | l0 :: ls, acc =>
    if is_section_boundary (strip l0) then (l0 :: ls, acc)
    else notes_scan ls (if keep_note_line (strip l0) then acc ++ [strip l0] else acc)

/-- The outer label loop of `_parse_gradcafe_fields`.  The source walks an
index `i` that grows by at least one each iteration (the notes branch sets
`i = j - 1` before the `i += 1`, i.e. it resumes at the boundary line), so
the loop runs at most `lines.length` iterations; the structural fuel, set
to `lines.length` at the entry point, is therefore never exhausted. -/
def gc_field_loop : Nat → List Txt → ScrapeEntry → ScrapeEntry
  | 0, _, e => e
  | _ + 1, [], e => e
  | fuel + 1, cur0 :: rest, e =>
    match find_label (strip cur0) with
    | none => gc_field_loop fuel rest e
    | some fk =>
      if fk = FieldKey.notes then
        let sc := notes_scan rest []
        gc_field_loop fuel sc.1
          (if sc.2.isEmpty then e
           else set_scrape_field FieldKey.notes (strip (join_space sc.2)) e)
      else
        gc_field_loop fuel rest
          (match rest with
           | [] => e
           | v0 :: _ => if keep_field_value (strip v0) then set_scrape_field fk (strip v0) e else e)

/-- scrape.py `_parse_gradcafe_fields`. -/
def parse_gradcafe_fields (lines : List Txt) : ScrapeEntry :=
  gc_field_loop lines.length lines empty_scrape_entry

/-- Pattern `([0-4]\.[0-9]{1,2})` of the GPA clean-up, returning the capture. -/
def m_gpa_cell : Txt → Option Txt
  | c :: '.' :: d1 :: rest =>
    if ('0' ≤ c && c ≤ '4') && is_digit_ch d1 then
      match rest with
      | d2 :: _ => if is_digit_ch d2 then some [c, '.', d1, d2] else some [c, '.', d1]
      | [] => some [c, '.', d1]
    else none
  | _ => none

/-- scrape.py `_clean_and_validate_entry` GPA step: replace the cell text
with the first captured decimal when one exists. -/
def scrape_gpa_clean (g : Txt) : Txt :=
  match search m_gpa_cell g with
  | some cap => cap
  | none => g

/-- Pattern `\d{1,2}/`: one or two digits (greedy, with the engine's backtracking
step) followed by a slash; returns the digits and the rest. -/
def d12_slash : Txt → Option (Txt × Txt)
  | a :: b :: c :: r =>
    if is_digit_ch a then
      if is_digit_ch b then (if c = '/' then some ([a, b], r) else none)
      else if b = '/' then some ([a], c :: r)
      else none
    else none
  | [a, b] => if is_digit_ch a && b = '/' then some ([a], []) else none
  | _ => none

/-- Pattern `on (\d{1,2}/\d{1,2}/\d{4})`, returning the captured date. -/
def m_notif_date (s : Txt) : Option Txt :=
  (drop_lit (str "on ") s).bind fun r =>
    (d12_slash r).bind fun p1 =>
      (d12_slash p1.2).bind fun p2 =>
        (take_dchars 4 p2.2).map fun p3 => p1.1 ++ '/' :: p2.1 ++ '/' :: p3.1

/-- Pattern `via (\w+)`, returning the captured word. -/
def m_via (s : Txt) : Option Txt :=
  (drop_lit (str "via ") s).bind fun r =>
    if (r.takeWhile is_word_ch).isEmpty then none else some (r.takeWhile is_word_ch)

/-- The decision standardization of `_clean_and_validate_entry`: substring
classification on the lowered text, `accept` before `reject` before
`waitlist` before `interview`, anything else mapped to `Other`. -/
def standardize_decision (d : Txt) : Txt :=
  if is_substr (str "accept") (lower d) then str "Accepted"
  else if is_substr (str "reject") (lower d) then str "Rejected"
  else if is_substr (str "waitlist") (lower d) then str "Waitlisted"
  else if is_substr (str "interview") (lower d) then str "Interview"
  else str "Other"

/-- Worker for `py_split_ws`. -/
def split_ws_go : Txt → Txt → List Txt
  | acc, [] => if acc.isEmpty then [] else [acc.reverse]
  | acc, c :: cs =>
    if py_ws c then
      if acc.isEmpty then split_ws_go [] cs else acc.reverse :: split_ws_go [] cs
    else split_ws_go (c :: acc) cs

/-- Python `str.split()` (whitespace runs, no empty pieces). -/
def py_split_ws (t : Txt) : List Txt := split_ws_go [] t

/-- The GPA block of `_clean_and_validate_entry` (`if 'gpa' in entry_data`). -/
def cave_gpa_step (e : ScrapeEntry) : ScrapeEntry :=
  match e.gpa with
  | some g => { e with gpa := some (scrape_gpa_clean g) }
  | none => e

/-- The notification block of `_clean_and_validate_entry`. -/
def cave_notif_step (e : ScrapeEntry) : ScrapeEntry :=
  match e.notification with
  | some n =>
    let ea := match search m_notif_date n with
      | some d => { e with notification_date := some d }
      | none => e
    (match search m_via n with
     | some w => { ea with notification_method := some w }
     | none => ea)
  | none => e

/-- The decision block of `_clean_and_validate_entry`. -/
def cave_decision_step (e : ScrapeEntry) : ScrapeEntry :=
  match e.decision with
  | some d => { e with decision_standardized := some (standardize_decision d) }
  | none => e

/-- The notes-metadata block of `_clean_and_validate_entry`
(`if 'notes' in entry_data and entry_data['notes']`). -/
def cave_notes_step (e : ScrapeEntry) : ScrapeEntry :=
  match e.notes with
  | some n =>
    if n.isEmpty then e
    else
      { e with notes := some (strip n), notes_length := some (strip n).length,
               notes_word_count := some (py_split_ws (strip n)).length }
  | none => e

/-- scrape.py `_clean_and_validate_entry`: GPA clean-up, notification
date/method parsing, decision standardization, notes metadata — the four
sequential blocks of the source. -/
def clean_and_validate_entry (e : ScrapeEntry) : ScrapeEntry :=
  cave_notes_step (cave_decision_step (cave_notif_step (cave_gpa_step e)))

/-- Newline split worker. -/
def split_nl_go : Txt → Txt → List Txt
  | acc, [] => [acc.reverse]
  | acc, c :: cs => if c = '\n' then acc.reverse :: split_nl_go [] cs else split_nl_go (c :: acc) cs

/-- The line preparation of `_parse_individual_entry`: split on newlines,
strip, drop empties. -/
def prep_lines (t : Txt) : List Txt :=
  ((split_nl_go [] t).map strip).filter (fun l => !l.isEmpty)

/-- scrape.py `_parse_individual_entry` (text part): label parsing then
clean-and-validate. -/
def parse_individual_entry (page_text : Txt) : ScrapeEntry :=
  clean_and_validate_entry (parse_gradcafe_fields (prep_lines page_text))


/-! ### scrape.py metadata collection and detail fetching -/

/-- The row-metadata dict built by scrape.py `_extract_row_metadata`. -/
structure MetaData where
  entry_id : Nat
  entry_url : Txt
  added_on_date : Option Txt := none
  season : Option Txt := none
  table_institution : Option Txt := none
  table_program : Option Txt := none
  table_decision : Option Txt := none
deriving DecidableEq

/-- The page loop of scrape.py `_collect_entry_metadata` (and of main.py
`_collect_metadata_sequential`, which is the same control flow).  The
network is the oracle `fetch`: `none` is a failed page request (the
source's exception/HTTP-error paths, which return the empty list to the
loop), `some rows` a parsed page.  The structural fuel counts the pages
left below the cap, i.e. it encodes `current_page ≤ max_pages`; the loop
stops when the target count is reached, the cap is passed, or three
consecutive pages produced no metadata.  Returns the accumulated metadata
together with the list of page indices actually fetched.  The inter-page
sleep and the print/stat side effects are not modelled. -/
def collect_loop (fetch : Nat → Option (List MetaData)) (target : Nat) :
    Nat → Nat → Nat → List MetaData → List MetaData × List Nat
  | 0, _, _, acc => (acc, [])
  | fuel + 1, page, consec, acc =>
    if acc.length < target ∧ consec < 3 then
      let rows := (fetch page).getD []
      if rows.isEmpty then
        let rec1 := collect_loop fetch target fuel (page + 1) (consec + 1) acc
        (rec1.1, page :: rec1.2)
      else
        let rec1 := collect_loop fetch target fuel (page + 1) 0 (acc ++ rows)
        (rec1.1, page :: rec1.2)
    else (acc, [])

/-- The pages fetched by a run of the metadata-collection loop. -/
def collect_pages (fetch : Nat → Option (List MetaData))
    (max_pages start_page target : Nat) : List Nat :=
  (collect_loop fetch target (max_pages + 1 - start_page) start_page 0 []).2

/-- scrape.py `_collect_entry_metadata`: run the page loop from the start
page and truncate the result to the target count. -/
def collect_entry_metadata (fetch : Nat → Option (List MetaData))
    (max_pages start_page target : Nat) : List MetaData :=
  let all := (collect_loop fetch target (max_pages + 1 - start_page) start_page 0 []).1
  if target < all.length then all.take target else all

/-- scrape.py `_fetch_detailed_entries`: walks the metadata list in order;
the oracle `details` is `_fetch_single_entry_details` (`none` = failed
fetch, which skips the entry).  A merged entry `{**metadata, **detail}`
is modelled as the pair of both dicts — their key sets are disjoint in
the source, so neither overrides the other.  No key-based filtering of
any kind is performed.  Backup writing and counters are not modelled. -/
def fetch_detailed_entries (details : Nat → Option ScrapeEntry) :
    List MetaData → List (MetaData × ScrapeEntry)
  | [] => []
  | m :: rest =>
    match details m.entry_id with
    | some d => (m, d) :: fetch_detailed_entries details rest
    | none => fetch_detailed_entries details rest


/-! ### Helper lemmas -/

/-- The range-gated pattern cascade returns the first parsed value inside
the range. -/
theorem first_in_range_eq_find (lo hi : Nat) (os : List (Option Nat)) :
    first_in_range lo hi os = (os.filterMap id).find? (fun v => decide (lo ≤ v ∧ v ≤ hi)) := by
  induction os with
  | nil => rfl
  | cons o rest ih =>
    cases o with
    | none => simpa [first_in_range] using ih
    | some v =>
      by_cases hv : lo ≤ v ∧ v ≤ hi
      · simp [first_in_range, hv]
      · simp [first_in_range, hv, ih]

/-- A found label is the label of the found key. -/
theorem find_label_eq (line : Txt) (fk : FieldKey) (h : find_label line = some fk) :
    line = field_label fk := by
  have h2 := List.find?_some h
  simpa using (of_decide_eq_true h2).symm

/-- Setting a non-notes field leaves the notes value unchanged. -/
theorem set_scrape_field_notes (k : FieldKey) (v : Txt) (e : ScrapeEntry)
    (hk : k ≠ FieldKey.notes) : (set_scrape_field k v e).notes = e.notes := by
  cases k <;> first | rfl | exact absurd rfl hk

/-! ### Claim C3 -/

/-- Claim C3: every value the GRE-total extractor stores lies in
[260, 340]; a value is stored exactly when some pattern parses an
in-range 3-digit integer; a lone parse of 341 leaves the field absent
while 260 is accepted. -/
theorem c3_gre_total_range :
    (∀ t : Txt,
      (∀ v, extract_gre_score_value t = some v → 260 ≤ v ∧ v ≤ 340) ∧
      ((extract_gre_score_value t).isSome ↔ ∃ v ∈ gre_total_parsed t, 260 ≤ v ∧ v ≤ 340)) ∧
    extract_gre_score_value (str "gre 341") = none ∧
    extract_gre_score_value (str "gre 260") = some 260 := by
  refine ⟨?_, by decide, by decide⟩
  intro t
  have hfind := first_in_range_eq_find 260 340 (gre_total_searches (lower t))
  constructor
  · intro v hv
    rw [extract_gre_score_value, hfind] at hv
    simpa using List.find?_some hv
  · rw [extract_gre_score_value, hfind, gre_total_parsed]
    constructor
    · intro hs
      obtain ⟨v, hv⟩ := Option.isSome_iff_exists.mp hs
      exact ⟨v, List.mem_of_find?_eq_some hv, by simpa using List.find?_some hv⟩
    · rintro ⟨v, hv, hrange⟩
      rcases hcase : List.find? (fun v => decide (260 ≤ v ∧ v ≤ 340))
          ((gre_total_searches (lower t)).filterMap id) with _ | w
      · exact absurd hrange (by simpa using List.find?_eq_none.mp hcase v hv)
      · simp

/-- Witness for C3 at the accepted example value 260. -/
theorem c3_gre_total_range_witness : (extract_gre_score_value (str "gre 260")).isSome := by
  exact ((c3_gre_total_range.1 (str "gre 260")).2).mpr ⟨260, by decide, by decide⟩

/-! ### Claim C4 -/

/-- Claim C4: a code with a table entry maps to that entry
("F25" → "Fall 2025"); a word-bounded one-letter-plus-two-digit code with
no table entry is decoded algorithmically ("S99" → "Spring 2099",
F → Fall, S → Spring, year "20" + digits); with no table hit and no code
the extractor falls back to the full season-name search. -/
theorem c4_season_decode :
    parse_season_code (str "F25") = some (str "Fall 2025") ∧
    parse_season_code (str "S99") = some (str "Spring 2099") ∧
    (∀ (t : Txt) (c d1 d2 : Char), t.isEmpty = false →
      season_mapping.find? (fun p => is_substr p.1 (strip t)) = none →
      search_bnd match_season_code none (strip t) = some (c, d1, d2) →
      season_mapping.find? (fun p => p.1 = [c, d1, d2]) = none →
      parse_season_code t =
        (if c = 'F' then some (str "Fall 20" ++ [d1, d2])
         else if c = 'S' then some (str "Spring 20" ++ [d1, d2])
         else full_season_fallback (strip t))) ∧
    (∀ t : Txt, t.isEmpty = false →
      season_mapping.find? (fun p => is_substr p.1 (strip t)) = none →
      search_bnd match_season_code none (strip t) = none →
      parse_season_code t = full_season_fallback (strip t)) := by
  refine ⟨by decide, by decide, ?_, ?_⟩
  · intro t c d1 d2 hne htab hcode hmap
    simp [parse_season_code, hne, htab, hcode, hmap]
  · intro t hne htab hcode
    simp [parse_season_code, hne, htab, hcode]

/-- Witness for C4: the unmapped code "S27" decodes to "Spring 2027". -/
theorem c4_season_decode_witness : parse_season_code (str "S27") = some (str "Spring 2027") := by
  exact (c4_season_decode.2.2.1 (str "S27") 'S' '2' '7'
    (by decide) (by decide) (by decide) (by decide)).trans (by decide)

/-! ### Claim C10 -/

/-- Claim C10: the season-code table lookup is substring containment, so
any text containing "F25" — also inside a longer token — maps to
"Fall 2025" before the word-boundary pattern is consulted. -/
theorem c10_substring_lookup (t : Txt) (h : is_substr (str "F25") (strip t) = true) :
    parse_season_code t = some (str "Fall 2025") := by
  have hne : t.isEmpty = false := by
    cases t with
    | nil => exact absurd h (by decide)
    | cons a l => rfl
  have hfind : season_mapping.find? (fun p => is_substr p.1 (strip t))
      = some (str "F25", str "Fall 2025") := by
    rw [season_mapping]
    exact List.find?_cons_of_pos _ (by simpa using h)
  simp [parse_season_code, hne, hfind]

/-- Witness for C10 at the claim's example "F256". -/
theorem c10_substring_lookup_witness : parse_season_code (str "F256") = some (str "Fall 2025") :=
  c10_substring_lookup (str "F256") (by decide)

/-! ### Claim C5 -/

/-- Claim C5: the completeness score is banker's-rounded
`100 · filled / 8` over the fixed eight important fields, lies in
[0, 100], is determined by the truthiness pattern of those fields alone,
and equals 50 when exactly four of the eight are filled. -/
theorem c5_completeness (e : CleanedEntry) :
    calculate_completeness e =
      round_half_even ((important_fields e).countP truthy * 100) 8 ∧
    calculate_completeness e ≤ 100 ∧
    ((important_fields e).countP truthy = 4 → calculate_completeness e = 50) ∧
    (∀ e2 : CleanedEntry,
      (important_fields e).map truthy = (important_fields e2).map truthy →
      calculate_completeness e = calculate_completeness e2) := by
  have key : ∀ e1 : CleanedEntry,
      calculate_completeness e1 = round_half_even ((important_fields e1).countP truthy * 100) 8 :=
    fun _ => rfl
  have hle : (important_fields e).countP truthy ≤ 8 := by
    simpa [important_fields] using List.countP_le_length (p := truthy) (l := important_fields e)
  refine ⟨key e, ?_, ?_, ?_⟩
  · have hall : ∀ n, n < 9 → round_half_even (n * 100) 8 ≤ 100 := by decide
    rw [key]
    exact hall _ (Nat.lt_succ_of_le hle)
  · intro h4
    rw [key, h4]
    decide
  · intro e2 hmap
    rw [key, key]
    have hcount : (important_fields e).countP truthy = (important_fields e2).countP truthy := by
      have h1 : ((important_fields e).map truthy).countP (fun b => b)
          = ((important_fields e2).map truthy).countP (fun b => b) := by rw [hmap]
      simpa [List.countP_map, Function.comp] using h1
    rw [hcount]

/-- Witness for C5: an entry with exactly four important fields filled
scores 50. -/
theorem c5_completeness_witness :
    calculate_completeness
      { program_name := some (str "CS"), university := some (str "JHU"),
        comments := some [], date_information_added := some [],
        url_link_to_applicant_entry := some [], applicant_status := some (str "Accepted"),
        acceptance_date := some [], rejection_date := some [],
        semester_and_year_program_start := some [], international_american_student := some [],
        gre_score := some (str "320"), gre_v_score := some [], masters_or_phd := some [],
        gpa := some [], gre_aw := some [], entry_id := str "gc_000000",
        data_completeness_percentage := 0 } = 50 := by
  exact (c5_completeness _).2.2.1 (by decide)

/-! ### Claim C2 -/

/-- Once the consecutive-empty counter has reached the threshold 3, the
page loop fetches nothing. -/
theorem collect_loop_stop (fetch : Nat → Option (List MetaData)) (target fuel page consec : Nat)
    (acc : List MetaData) (h : 3 ≤ consec) :
    (collect_loop fetch target fuel page consec acc).2 = [] := by
  cases fuel with
  | zero => rfl
  | succ f =>
    have hcond : ¬(acc.length < target ∧ consec < 3) := by omega
    simp [collect_loop, hcond]

/-- From page `p+2` with counter at least 2 and an empty page `p+2`,
page `p+3` is never fetched. -/
theorem collect_loop_aux2 (fetch : Nat → Option (List MetaData)) (target p : Nat)
    (h2 : (fetch (p + 2)).getD [] = []) :
    ∀ (fuel consec : Nat) (acc : List MetaData), 2 ≤ consec →
      (p + 3) ∉ (collect_loop fetch target fuel (p + 2) consec acc).2 := by
  intro fuel consec acc hc
  cases fuel with
  | zero => simp [collect_loop]
  | succ f =>
    by_cases hcond : acc.length < target ∧ consec < 3
    · have hstop := collect_loop_stop fetch target f (p + 3) (consec + 1) acc (by omega)
      simp [collect_loop, hcond, h2, hstop]
    · simp [collect_loop, hcond]

/-- From page `p+1` with counter at least 1 and empty pages `p+1`, `p+2`,
page `p+3` is never fetched. -/
theorem collect_loop_aux1 (fetch : Nat → Option (List MetaData)) (target p : Nat)
    (h1 : (fetch (p + 1)).getD [] = []) (h2 : (fetch (p + 2)).getD [] = []) :
    ∀ (fuel consec : Nat) (acc : List MetaData), 1 ≤ consec →
      (p + 3) ∉ (collect_loop fetch target fuel (p + 1) consec acc).2 := by
  intro fuel consec acc hc
  cases fuel with
  | zero => simp [collect_loop]
  | succ f =>
    by_cases hcond : acc.length < target ∧ consec < 3
    · have hrec := collect_loop_aux2 fetch target p h2 f (consec + 1) acc (by omega)
      have harith : p + 1 + 1 = p + 2 := by omega
      simp only [collect_loop, if_pos hcond, h1, List.isEmpty_nil, if_true, harith]
      simp only [List.mem_cons]
      rintro (habs | habs)
      · omega
      · exact hrec habs
    · simp [collect_loop, hcond]

/-- The circuit-breaker core: if pages `p`, `p+1`, `p+2` all yield no
metadata, page `p+3` is never fetched, from any loop state at or before
page `p` and regardless of the target and remaining-page budget. -/
theorem collect_loop_breaker (fetch : Nat → Option (List MetaData)) (target p : Nat)
    (h0 : (fetch p).getD [] = []) (h1 : (fetch (p + 1)).getD [] = [])
    (h2 : (fetch (p + 2)).getD [] = []) :
    ∀ (fuel page consec : Nat) (acc : List MetaData), page ≤ p →
      (p + 3) ∉ (collect_loop fetch target fuel page consec acc).2 := by
  intro fuel
  induction fuel with
  | zero => intro page consec acc _; simp [collect_loop]
  | succ f ih =>
    intro page consec acc hpage
    by_cases hcond : acc.length < target ∧ consec < 3
    · rcases Nat.lt_or_ge page p with hlt | hge
      · by_cases hrow : ((fetch page).getD []).isEmpty
        · have hrec := ih (page + 1) (consec + 1) acc (by omega)
          simp only [collect_loop, if_pos hcond, hrow, if_true, List.mem_cons]
          rintro (habs | habs)
          · omega
          · exact hrec habs
        · have hrec := ih (page + 1) 0 (acc ++ (fetch page).getD []) (by omega)
          simp only [collect_loop, if_pos hcond, hrow, if_false, List.mem_cons,
            Bool.false_eq_true]
          rintro (habs | habs)
          · omega
          · exact hrec habs
      · have hpp : page = p := by omega
        subst hpp
        have hrec := collect_loop_aux1 fetch target page h1 h2 f (consec + 1) acc (by omega)
        simp only [collect_loop, if_pos hcond, h0, List.isEmpty_nil, if_true, List.mem_cons]
        rintro (habs | habs)
        · omega
        · exact hrec habs
    · simp [collect_loop, hcond]

/-- A failed page request is indistinguishable from an empty page: the
loop only consumes `(fetch q).getD []`. -/
theorem collect_loop_congr (fetch fetch' : Nat → Option (List MetaData)) (target : Nat)
    (h : ∀ q, (fetch q).getD [] = (fetch' q).getD []) :
    ∀ (fuel page consec : Nat) (acc : List MetaData),
      collect_loop fetch target fuel page consec acc
        = collect_loop fetch' target fuel page consec acc := by
  intro fuel
  induction fuel with
  | zero => intro page consec acc; rfl
  | succ f ih =>
    intro page consec acc
    simp only [collect_loop, h page, ih]

/-- Claim C2: with the empty-page threshold 3, three consecutive pages
yielding no row metadata stop the page loop — page `p+3` is never
fetched, whatever the target-entry count and the max-page cap — and a
failed page fetch behaves exactly like an empty page (it feeds the
breaker but does not abort the run). -/
theorem c2_circuit_breaker :
    (∀ (fetch : Nat → Option (List MetaData)) (max_pages start_page target p : Nat),
      start_page ≤ p →
      (fetch p).getD [] = [] → (fetch (p + 1)).getD [] = [] → (fetch (p + 2)).getD [] = [] →
      (p + 3) ∉ collect_pages fetch max_pages start_page target) ∧
    (∀ (fetch fetch' : Nat → Option (List MetaData)) (max_pages start_page target : Nat),
      (∀ q, (fetch q).getD [] = (fetch' q).getD []) →
      collect_entry_metadata fetch max_pages start_page target
          = collect_entry_metadata fetch' max_pages start_page target ∧
      collect_pages fetch max_pages start_page target
          = collect_pages fetch' max_pages start_page target) := by
  constructor
  · intro fetch max_pages start_page target p hsp h0 h1 h2
    exact collect_loop_breaker fetch target p h0 h1 h2 _ start_page 0 [] hsp
  · intro fetch fetch' max_pages start_page target h
    have hloop := collect_loop_congr fetch fetch' target h
      (max_pages + 1 - start_page) start_page 0 []
    constructor
    · rw [collect_entry_metadata, collect_entry_metadata, hloop]
    · rw [collect_pages, collect_pages, hloop]

/-- Witness for C2: a run in which every page request fails (and the
target of 100 entries is never met, with the cap at 50 pages) stops
after pages 1, 2, 3 — page 4 is not fetched. -/
theorem c2_circuit_breaker_witness :
    (4 : Nat) ∉ collect_pages (fun _ => none) 50 1 100 := by
  have h := c2_circuit_breaker.1 (fun _ => none) 50 1 100 1 (by decide) rfl rfl rfl
  simpa using h

/-! ### Claim C1 -/

/-- Counterexample to C1 as stated: feeding the same canonical key
(entry id 7) twice through the detail-fetch/aggregation phase yields two
aggregated records, not one. -/
theorem c1_counterexample :
    (fetch_detailed_entries (fun _ => some empty_scrape_entry)
        [{ entry_id := 7, entry_url := str "a" }, { entry_id := 7, entry_url := str "b" }]).length
      = 2 ∧
    ((fetch_detailed_entries (fun _ => some empty_scrape_entry)
        [{ entry_id := 7, entry_url := str "a" }, { entry_id := 7, entry_url := str "b" }]).map
        (fun pr => pr.1.entry_id)) = [7, 7] ∧
    ¬ (fetch_detailed_entries (fun _ => some empty_scrape_entry)
        [{ entry_id := 7, entry_url := str "a" }, { entry_id := 7, entry_url := str "b" }]).length
      = 1 := by
  decide

/-- Claim C1 as amended: the aggregation phase performs no key-based
deduplication — every metadata record whose detail fetch succeeds
produces its own aggregated record, in input order, duplicate canonical
keys included; a failed detail fetch drops only that record. -/
theorem c1_no_dedup (details : Nat → Option ScrapeEntry) (ms : List MetaData) :
    fetch_detailed_entries details ms
        = ms.filterMap (fun m => (details m.entry_id).map (fun d => (m, d))) ∧
    (fetch_detailed_entries details ms).map Prod.fst
        = ms.filter (fun m => (details m.entry_id).isSome) := by
  constructor
  · induction ms with
    | nil => rfl
    | cons m rest ih =>
      cases h : details m.entry_id <;> simp [fetch_detailed_entries, h, ih]
  · induction ms with
    | nil => rfl
    | cons m rest ih =>
      cases h : details m.entry_id <;> simp [fetch_detailed_entries, h, ih]

/-! ### Claim C7 -/

/-- The GPA block leaves the decision fields unchanged. -/
theorem cave_gpa_step_decision (e : ScrapeEntry) :
    (cave_gpa_step e).decision = e.decision ∧
    (cave_gpa_step e).decision_standardized = e.decision_standardized := by
  unfold cave_gpa_step
  split <;> exact ⟨rfl, rfl⟩

/-- The notification block leaves the decision fields unchanged. -/
theorem cave_notif_step_decision (e : ScrapeEntry) :
    (cave_notif_step e).decision = e.decision ∧
    (cave_notif_step e).decision_standardized = e.decision_standardized := by
  unfold cave_notif_step
  split
  · split <;> split <;> exact ⟨rfl, rfl⟩
  · exact ⟨rfl, rfl⟩

/-- The decision block preserves the verbatim decision text. -/
theorem cave_decision_step_decision (e : ScrapeEntry) :
    (cave_decision_step e).decision = e.decision := by
  unfold cave_decision_step
  split <;> rfl

/-- The notes block leaves the decision fields unchanged. -/
theorem cave_notes_step_decision (e : ScrapeEntry) :
    (cave_notes_step e).decision = e.decision ∧
    (cave_notes_step e).decision_standardized = e.decision_standardized := by
  unfold cave_notes_step
  split
  · split <;> exact ⟨rfl, rfl⟩
  · exact ⟨rfl, rfl⟩

/-- Source `_clean_and_validate_entry` passes the decision text through verbatim. -/
theorem cave_decision_verbatim (e : ScrapeEntry) :
    (clean_and_validate_entry e).decision = e.decision := by
  rw [clean_and_validate_entry, (cave_notes_step_decision _).1, cave_decision_step_decision,
    (cave_notif_step_decision _).1, (cave_gpa_step_decision _).1]

/-- Source `_clean_and_validate_entry` standardizes a present decision text. -/
theorem cave_decision_standardized (e : ScrapeEntry) (d : Txt) (hd : e.decision = some d) :
    (clean_and_validate_entry e).decision_standardized = some (standardize_decision d) := by
  have h2 : (cave_notif_step (cave_gpa_step e)).decision = some d := by
    rw [(cave_notif_step_decision _).1, (cave_gpa_step_decision _).1, hd]
  rw [clean_and_validate_entry, (cave_notes_step_decision _).2]
  unfold cave_decision_step
  rw [h2]

/-- Counterexample to C7 as stated: the decision text "Denied" is not
classified at the reject priority — the code only checks the substring
`reject`, so "Denied" standardizes to "Other". -/
theorem c7_counterexample :
    (clean_and_validate_entry { decision := some (str "Denied") }).decision_standardized
        = some (str "Other") ∧
    ¬ (clean_and_validate_entry { decision := some (str "Denied") }).decision_standardized
        = some (str "Rejected") := by
  decide

/-- Claim C7 as amended: standardized classification checks substrings in
the priority order accept > reject > waitlist > interview, first match
winning (`denied` is not a recognized keyword); text matching none of
them is classified "Other" while the original decision text passes
through verbatim in the output record. -/
theorem c7_decision_priority (e : ScrapeEntry) (d : Txt) (hd : e.decision = some d) :
    (clean_and_validate_entry e).decision = some d ∧
    (clean_and_validate_entry e).decision_standardized = some (standardize_decision d) ∧
    (is_substr (str "accept") (lower d) = true →
      standardize_decision d = str "Accepted") ∧
    (is_substr (str "accept") (lower d) = false →
      is_substr (str "reject") (lower d) = true →
      standardize_decision d = str "Rejected") ∧
    (is_substr (str "accept") (lower d) = false →
      is_substr (str "reject") (lower d) = false →
      is_substr (str "waitlist") (lower d) = true →
      standardize_decision d = str "Waitlisted") ∧
    (is_substr (str "accept") (lower d) = false →
      is_substr (str "reject") (lower d) = false →
      is_substr (str "waitlist") (lower d) = false →
      is_substr (str "interview") (lower d) = true →
      standardize_decision d = str "Interview") ∧
    (is_substr (str "accept") (lower d) = false →
      is_substr (str "reject") (lower d) = false →
      is_substr (str "waitlist") (lower d) = false →
      is_substr (str "interview") (lower d) = false →
      standardize_decision d = str "Other") := by
  refine ⟨(cave_decision_verbatim e).trans hd, cave_decision_standardized e d hd, ?_, ?_, ?_, ?_, ?_⟩
  · intro h1; simp [standardize_decision, h1]
  · intro h1 h2; simp [standardize_decision, h1, h2]
  · intro h1 h2 h3; simp [standardize_decision, h1, h2, h3]
  · intro h1 h2 h3 h4; simp [standardize_decision, h1, h2, h3, h4]
  · intro h1 h2 h3 h4; simp [standardize_decision, h1, h2, h3, h4]

/-- Witness for C7 (amended): a waitlist decision, containing neither
`accept` nor `reject`, standardizes to "Waitlisted" and the text is
preserved verbatim. -/
theorem c7_decision_priority_witness :
    (clean_and_validate_entry { decision := some (str "Wait listed (waitlist)") }).decision
        = some (str "Wait listed (waitlist)") ∧
    standardize_decision (str "Wait listed (waitlist)") = str "Waitlisted" := by
  have h := c7_decision_priority { decision := some (str "Wait listed (waitlist)") }
    (str "Wait listed (waitlist)") rfl
  exact ⟨h.1, h.2.2.2.2.1 (by decide) (by decide) (by decide)⟩

/-! ### Claim C9 -/

/-- Claim C9: every record emitted by the cleaning pass carries the whole
fixed required-field set as present string values — a field whose
extraction failed is the empty string, never a missing key or None. -/
theorem c9_required_fields_present (hf : Txt → Nat) (raws : List RawEntry) (e : CleanedEntry)
    (he : e ∈ clean_data hf raws) :
    e.program_name.isSome ∧ e.university.isSome ∧ e.comments.isSome ∧
    e.date_information_added.isSome ∧ e.url_link_to_applicant_entry.isSome ∧
    e.applicant_status.isSome ∧ e.acceptance_date.isSome ∧ e.rejection_date.isSome ∧
    e.semester_and_year_program_start.isSome ∧ e.international_american_student.isSome ∧
    e.gre_score.isSome ∧ e.gre_v_score.isSome ∧ e.masters_or_phd.isSome ∧
    e.gpa.isSome ∧ e.gre_aw.isSome := by
  rw [clean_data, List.mem_map] at he
  obtain ⟨raw, _, rfl⟩ := he
  refine ⟨?_, ?_, ?_, ?_, ?_, ?_, ?_, ?_, ?_, ?_, ?_, ?_, ?_, ?_, ?_⟩ <;>
    simp [clean_single_entry, clean_and_validate_fields]

/-- Witness for C9 on a concrete raw entry. -/
theorem c9_required_fields_present_witness :
    (clean_single_entry (fun _ => 0)
        { cell_data := [], row_text := [], html_content := [],
          entry_detail_url := none, page_url := none }).gre_score.isSome := by
  exact (c9_required_fields_present (fun _ => 0)
    [{ cell_data := [], row_text := [], html_content := [],
       entry_detail_url := none, page_url := none }] _
    (List.mem_singleton.mpr rfl)).2.2.2.2.2.2.2.2.2.2.1

/-! ### Claim C6 -/

/-- Source `_extract_basic_info` never touches the score fields. -/
theorem extract_basic_info_scores (raw : RawEntry) (e : CleanedEntry) :
    (extract_basic_info raw e).gre_score = e.gre_score ∧
    (extract_basic_info raw e).gpa = e.gpa := by
  unfold extract_basic_info
  split <;> split <;> split <;> split <;> exact ⟨rfl, rfl⟩

/-- Source `_extract_decision_dates` never touches the score fields. -/
theorem extract_decision_dates_scores (e : CleanedEntry) :
    (extract_decision_dates e).gre_score = e.gre_score ∧
    (extract_decision_dates e).gpa = e.gpa := by
  unfold extract_decision_dates
  split
  · exact ⟨rfl, rfl⟩
  · split <;> exact ⟨rfl, rfl⟩

/-- Source `_extract_decision_dates` never touches the basic fields. -/
theorem extract_decision_dates_basic (e : CleanedEntry) :
    (extract_decision_dates e).university = e.university ∧
    (extract_decision_dates e).applicant_status = e.applicant_status := by
  unfold extract_decision_dates
  split
  · exact ⟨rfl, rfl⟩
  · split <;> exact ⟨rfl, rfl⟩

/-- Claim C6: a parsed value outside its field's validation range drops
only that field (it stays the empty string in the output record, shown
here for the GRE-total and GPA fields, while the detailed-extraction
pass leaves the listing-derived fields untouched); the record itself is
still produced — the cleaning pass emits one record per raw entry. -/
theorem c6_out_of_range_drops_field (hf : Txt → Nat) (raws : List RawEntry) (raw : RawEntry) :
    (clean_data hf raws).length = raws.length ∧
    ((∀ v ∈ gre_total_parsed (detail_text raw), ¬(260 ≤ v ∧ v ≤ 340)) →
      (clean_single_entry hf raw).gre_score = some []) ∧
    ((∀ v ∈ gpa_parsed (detail_text raw), ¬(0 ≤ v ∧ v ≤ 400)) →
      (clean_single_entry hf raw).gpa = some []) ∧
    (∀ e0 : CleanedEntry,
      (extract_detailed_info raw e0).university = e0.university ∧
      (extract_detailed_info raw e0).applicant_status = e0.applicant_status) := by
  refine ⟨by simp [clean_data], ?_, ?_, ?_⟩
  · intro h
    have hnone : extract_gre_score_value (detail_text raw) = none := by
      rw [extract_gre_score_value, first_in_range_eq_find, List.find?_eq_none]
      intro v hv
      simpa using h v (by simpa [gre_total_parsed] using hv)
    simp only [clean_single_entry, extract_detailed_info, clean_and_validate_fields,
      extract_comments, (extract_decision_dates_scores _).1, extract_semester_year,
      extract_student_status, extract_degree_type, extract_gpa, extract_gre_scores,
      hnone, Option.map_none', upd_field, (extract_basic_info_scores _ _).1]
    rfl
  · intro h
    have hnone : extract_gpa_value (detail_text raw) = none := by
      rw [extract_gpa_value, first_in_range_eq_find, List.find?_eq_none]
      intro v hv
      simpa using h v (by simpa [gpa_parsed] using hv)
    simp only [clean_single_entry, extract_detailed_info, clean_and_validate_fields,
      extract_comments, (extract_decision_dates_scores _).2, extract_semester_year,
      extract_student_status, extract_degree_type, extract_gpa, extract_gre_scores,
      hnone, Option.map_none', upd_field, (extract_basic_info_scores _ _).2]
    rfl
  · intro e0
    constructor <;>
      simp only [extract_detailed_info, extract_comments,
        (extract_decision_dates_basic _).1, (extract_decision_dates_basic _).2,
        extract_semester_year, extract_student_status, extract_degree_type,
        extract_gpa, extract_gre_scores]

/-- Witness for C6: a raw entry whose only GRE parse is the out-of-range
999 keeps its record but ends with an empty GRE-total field. -/
theorem c6_out_of_range_drops_field_witness :
    (clean_single_entry (fun _ => 0)
        { cell_data := [], row_text := str "gre 999", html_content := [],
          entry_detail_url := none, page_url := none }).gre_score = some [] := by
  exact (c6_out_of_range_drops_field (fun _ => 0) [] _).2.1 (by decide)

/-! ### Claim C8 -/

/-- The notes loop walks through non-boundary lines, keeping those that
pass the blocklist filter, and stops at the first boundary line. -/
theorem notes_scan_through (boundary : Txt) (rest : List Txt)
    (hb : is_section_boundary (strip boundary) = true) :
    ∀ (body : List Txt) (acc : List Txt),
      (∀ l ∈ body, is_section_boundary (strip l) = false) →
      notes_scan (body ++ boundary :: rest) acc =
        (boundary :: rest, acc ++ (body.map strip).filter keep_note_line) := by
  intro body
  induction body with
  | nil =>
    intro acc _
    simp [notes_scan, hb]
  | cons b bs ih =>
    intro acc h
    have hb0 : is_section_boundary (strip b) = false := h b (List.mem_cons_self b bs)
    have hrec := ih (if keep_note_line (strip b) then acc ++ [strip b] else acc)
      (fun l hl => h l (List.mem_cons_of_mem b hl))
    by_cases hk : keep_note_line (strip b) = true
    · rw [if_pos hk] at hrec
      simp [notes_scan, hb0, hk, hrec]
    · rw [if_neg hk] at hrec
      simp only [Bool.not_eq_true] at hk
      simp [notes_scan, hb0, hk, hrec]

/-- If no line of the remaining input is exactly the "Notes" label, the
outer field loop never modifies the notes value. -/
theorem gc_field_loop_no_notes :
    ∀ (fuel : Nat) (ls : List Txt) (e : ScrapeEntry),
      (∀ l ∈ ls, strip l ≠ str "Notes") →
      (gc_field_loop fuel ls e).notes = e.notes := by
  intro fuel
  induction fuel with
  | zero => intro ls e _; rfl
  | succ f ih =>
    intro ls e h
    cases ls with
    | nil => rfl
    | cons cur0 rest =>
      have hcur : strip cur0 ≠ str "Notes" := h cur0 (List.mem_cons_self cur0 rest)
      have hrest : ∀ l ∈ rest, strip l ≠ str "Notes" :=
        fun l hl => h l (List.mem_cons_of_mem cur0 hl)
      rcases hfind : find_label (strip cur0) with _ | fk
      · simp only [gc_field_loop, hfind]
        exact ih rest e hrest
      · have hfk : ¬ fk = FieldKey.notes := by
          intro heq
          exact hcur (by simpa [heq, field_label] using find_label_eq _ _ hfind)
        simp only [gc_field_loop, hfind, if_neg hfk]
        rw [ih rest _ hrest]
        split
        · rfl
        · split
          · exact set_scrape_field_notes fk _ e hfk
          · rfl

/-- Counterexample to C8 as stated: a non-empty notes result shorter than
six characters is kept, not treated as absent. -/
theorem c8_counterexample :
    (parse_gradcafe_fields [str "Notes", str "ok", str "Timeline"]).notes = some (str "ok") ∧
    (str "ok").length < 6 := by
  decide

/-- Claim C8 as amended: the notes value is the text of the lines between
the exact "Notes" label and the next recognized section boundary (a known
field label, a Timeline/Application Information marker or a "Received
notification" line), blocklisted boilerplate lines removed by exact match
and the kept lines joined by single spaces; an empty result is treated as
absent, but any non-empty result is kept regardless of its length. -/
theorem c8_notes_collection (body : List Txt) (boundary : Txt) (rest : List Txt)
    (hbody : ∀ l ∈ body, is_section_boundary (strip l) = false)
    (hb : is_section_boundary (strip boundary) = true)
    (hbn : strip boundary ≠ str "Notes")
    (hrest : ∀ l ∈ rest, strip l ≠ str "Notes") :
    (parse_gradcafe_fields (str "Notes" :: (body ++ boundary :: rest))).notes =
      (if ((body.map strip).filter keep_note_line).isEmpty then none
       else some (strip (join_space ((body.map strip).filter keep_note_line)))) := by
  have hlabel : find_label (strip (str "Notes")) = some FieldKey.notes := by decide
  have hscan := notes_scan_through boundary rest hb body [] hbody
  have hafter : ∀ l ∈ boundary :: rest, strip l ≠ str "Notes" := by
    intro l hl
    rcases List.mem_cons.mp hl with h1 | h1
    · exact h1 ▸ hbn
    · exact hrest l h1
  rw [parse_gradcafe_fields]
  simp only [List.length_cons, gc_field_loop, hlabel, hscan, List.nil_append]
  rw [if_pos trivial]
  rw [gc_field_loop_no_notes _ _ _ hafter]
  by_cases hk : ((body.map strip).filter keep_note_line).isEmpty = true
  · simp [hk, empty_scrape_entry]
  · simp only [Bool.not_eq_true] at hk
    simp [hk, set_scrape_field]

/-- Witness for C8 (amended): one kept line between the label and the
Timeline boundary becomes the notes value. -/
theorem c8_notes_collection_witness :
    (parse_gradcafe_fields [str "Notes", str "great visit", str "Timeline"]).notes
      = some (str "great visit") := by
  have h := c8_notes_collection [str "great visit"] (str "Timeline") []
    (by decide) (by decide) (by decide) (by intro l hl; cases hl)
  exact h.trans (by decide)
